import Mathlib

/-!
Shallow embedding of the ChatBot messaging relay (Express webhook server plus
Facebook Graph API client) and proofs about the behaviour its specification
describes.  The repository ships two variants of the server file and two
variants of the API client; where a claim cites both, both are embedded.
-/

namespace ChatBot

/-- Checks whether the second character list is an initial segment of the
first one.  Helper for the substring test below. -/
def listStartsWith : List Char → List Char → Bool
  | _, [] => true
  | [], _ :: _ => false
  | c :: cs, p :: ps => c == p && listStartsWith cs ps

/-- Contiguous containment of the second character list in the first one. -/
def listContainsSeq : List Char → List Char → Bool
  | [], pat => pat.isEmpty
  | c :: rest, pat => listStartsWith (c :: rest) pat || listContainsSeq rest pat

/-- Model of JS `String.prototype.includes`: substring containment. -/
def jsIncludes (s pat : String) : Bool := listContainsSeq s.toList pat.toList

/-- Model of JS `String.prototype.toLowerCase` (the texts matched by the bot
are ASCII, where `Char.toLower` agrees with the JS lowering). -/
def jsToLowerCase (s : String) : String := String.mk (s.toList.map Char.toLower)

/-- JS truthiness of an optional string value: `undefined` and the empty
string are falsy, any other string is truthy. -/
def jsTruthyOpt : Option String → Bool
  | none => false
  | some s => !(s == "")

/-- An HTTP response with a plain-text (or absent) body, as produced by the
webhook endpoints via `res.status(..).send(..)` and `res.sendStatus(..)`.
Bodies of non-200 statuses are modelled as absent. -/
structure HttpResponse where
  status : Nat
  body : Option String
deriving DecidableEq

/-- The three query values read by the GET /webhook handler
(`hub.mode`, `hub.verify_token`, `hub.challenge`); a value is `none` when the
query parameter is absent from the request. -/
structure VerifyQuery where
  mode : Option String
  verifyToken : Option String
  challenge : Option String
deriving DecidableEq

/-- The GET /webhook verification handler, src/app.js lines 79-115 (the same
logic appears in the second variant, lines 758-773): if `mode` and `token`
are both truthy and `mode === 'subscribe' && token === process.env.VERIFY_TOKEN`,
respond 200 with the (possibly absent) challenge value; with truthy `mode` and
`token` otherwise respond 403; else respond 400. -/
def webhookGet (verifyTokenEnv : Option String) (q : VerifyQuery) : HttpResponse :=
  if jsTruthyOpt q.mode && jsTruthyOpt q.verifyToken then
    if q.mode == some "subscribe" && q.verifyToken == verifyTokenEnv then
      { status := 200, body := q.challenge }
    else
      { status := 403, body := none }
  else
    { status := 400, body := none }

/-- A minimal JSON value, used for request parameters, request/response bodies
and the values returned by the API client. -/
inductive Json where
  | null
  | bool (b : Bool)
  | num (n : Int)
  | str (s : String)
  | arr (elems : List Json)
  | obj (fields : List (String × Json))

/-- First-match lookup in an association list of JSON object fields. -/
def lookupField : List (String × Json) → String → Option Json
  | [], _ => none
  | (k, v) :: rest, key => if k == key then some v else lookupField rest key

/-- JS property read `o[key]`: `none` models `undefined` (missing property or
read on a non-object JSON value). -/
def Json.getField : Json → String → Option Json
  | .obj fs, key => lookupField fs key
  | _, _ => none

/-- Overwrite-in-place-or-append update of an object field list, matching the
key-order behaviour of JS property assignment. -/
def setFieldList : List (String × Json) → String → Json → List (String × Json)
  | [], key, v => [(key, v)]
  | (k, w) :: rest, key, v =>
      if k == key then (key, v) :: rest else (k, w) :: setFieldList rest key v

/-- JS property assignment `o[key] = v`.  On non-object JSON values the
assignment has no effect observable through JSON serialisation. -/
def Json.setField : Json → String → Json → Json
  | .obj fs, key, v => .obj (setFieldList fs key v)
  | j, _, _ => j

/-- JS truthiness of a JSON value. -/
def jsTruthyJson : Json → Bool
  | .null => false
  | .bool b => b
  | .num n => n != 0
  | .str s => !(s == "")
  | .arr _ => true
  | .obj _ => true

/-- The failures thrown by the embedded code, classified by the spec's error
taxonomy.  The source throws plain `Error` objects; the constructor records
which code path threw and what data the interpolated message carries. -/
inductive JsError where
  | transport (message : String)
  | httpStatus (status : Nat) (statusText : String)
  | remoteApi (message : String)
  | typeError (message : String)
deriving DecidableEq

/-- The `message` property of each thrown error: messenger.js line 100 builds
`HTTP (status): (statusText)` and line 112 builds `API Error: (remote message)`;
transport and type errors carry the runtime-provided message. -/
def JsError.message : JsError → String
  | .transport m => m
  | .httpStatus s st => "HTTP " ++ toString s ++ ": " ++ st
  | .remoteApi m => "API Error: " ++ m
  | .typeError m => m

/-- `error.constructor.name` as reported by the REST façade's error bodies:
node-fetch network failures are `FetchError`, undefined-property accesses are
`TypeError`, everything the client throws itself is a plain `Error`. -/
def JsError.typeName : JsError → String
  | .transport _ => "FetchError"
  | .typeError _ => "TypeError"
  | _ => "Error"

/-- A decoded response of the remote Graph API: HTTP status, status text and
the JSON-decoded body. -/
structure RemoteResponse where
  status : Nat
  statusText : String
  body : Json

/-- JS template-literal coercion of a JSON value to a string, as used when the
remote error message is interpolated.  Only string messages occur in the flows
verified here; the array case is approximated (real JS joins the elements). -/
def jsCoerceToString : Json → String
  | .null => "null"
  | .bool b => cond b "true" "false"
  | .num n => toString n
  | .str s => s
  | .arr _ => "[object Object]"
  | .obj _ => "[object Object]"

/-- The message interpolated at messenger.js line 112
(`API Error: (data.error.message)`): a missing `message` property reads as
`undefined`. -/
def remoteErrMsg (errVal : Json) : String :=
  match errVal.getField "message" with
  | some v => jsCoerceToString v
  | none => "undefined"

/-- Response handling of `#sendApiRequest`, messenger.js lines 79-130 (the
same logic is at part_000 lines 66-116): a rejected fetch propagates as a
transport failure; a non-2xx status throws `HTTP (status): (statusText)`;
a truthy `error` field of the decoded body throws
`API Error: (data.error.message)` even on HTTP 200; otherwise the decoded
body is returned. -/
def sendApiRequest (remote : Except String RemoteResponse) : Except JsError Json :=
  match remote with
  | .error m => .error (.transport m)
  | .ok resp =>
      if resp.status < 200 ∨ 300 ≤ resp.status then
        .error (.httpStatus resp.status resp.statusText)
      else
        match resp.body.getField "error" with
        | some errVal =>
            if jsTruthyJson errVal then .error (.remoteApi (remoteErrMsg errVal))
            else .ok resp.body
        | none => .ok resp.body

/-- The single outgoing HTTP request issued by one client operation: method,
path below the API base URL, parameters carried in the URL query string, and
the JSON request body. -/
structure OutgoingRequest where
  method : String
  path : String
  query : Option Json
  body : Option Json

/-- Request construction of `#sendApiRequest` in messenger.js (v18.0 client),
lines 52-71: the access token is written into the parameter object; for GET
the parameters become the URL query string; for POST the parameters are
serialised as the JSON body (and the URL carries no query). -/
def buildApiRequest (accessToken api : String) (parameters : Json) (method : String) :
    OutgoingRequest :=
  let ps := parameters.setField "access_token" (.str accessToken)
  { method := method
    path := api
    query := if method == "GET" then some ps else none
    body := if method == "POST" then some ps else none }

/-- The parameter object `(access_token, ...parameters)` computed at part_000
lines 54-57.  None of the operations pass an `access_token` key of their own,
so the spread appends the operation parameters after the token. -/
def v23MergedParams (accessToken : String) (parameters : Json) : Json :=
  match parameters with
  | .obj fs => .obj (("access_token", Json.str accessToken) :: fs)
  | j => j

/-- Request construction of `#sendApiRequest` in the part_000 (v23.0) client,
lines 45-64: the URL is `apiUrl ++ api` with no query string and the options
carry no body, for GET and POST alike; the merged parameter object
(`v23MergedParams`) is computed but never attached to the request. -/
def buildApiRequestV23 (accessToken api : String) (parameters : Json) (method : String) :
    OutgoingRequest :=
  { method := method
    path := api
    query := none
    body := none }

/-- A quick-reply chip as passed to `sendQuickReply`. -/
structure QuickReply where
  content_type : String
  title : String
  payload : String
deriving DecidableEq

/-- A button as passed to `sendButtonTemplate` (web_url buttons carry a url,
postback buttons carry a payload). -/
structure TemplateButton where
  type : String
  title : String
  url : Option String
  payload : Option String
deriving DecidableEq

/-- The client operations invoked by the webhook handlers and the REST
façade, identified by method name and arguments. -/
inductive ApiCall where
  | sendTextMessage (userId message : String)
  | sendImage (userId imageUrl : String)
  | sendQuickReply (userId message : String) (quickReplies : List QuickReply)
  | sendButtonTemplate (userId text : String) (buttons : List TemplateButton)
  | markAsSeen (userId : String)
  | sendTypingIndicator (userId : String) (typing : Bool)
  | getUserProfile (userId : String)
  | getConversations
deriving DecidableEq

/-- The parameter object of `sendTextMessage` in messenger.js lines 209-213. -/
def textMessageParameters (userId message : String) : Json :=
  .obj [("recipient", .obj [("id", .str userId)]),
        ("messaging_type", .str "RESPONSE"),
        ("message", .obj [("text", .str message)])]

/-- The parameter object of `sendTextMessage` in part_000 lines 126-130. -/
def textMessageParametersV23 (userId message : String) : Json :=
  .obj [("recipient", .obj [("id", .str userId)]),
        ("message", .obj [("text", .str message)]),
        ("messaging_type", .str "RESPONSE")]

/-- The parameter object of `markAsSeen` / `sendTypingIndicator`,
messenger.js lines 358-361 and 383-386. -/
def senderActionParameters (userId action : String) : Json :=
  .obj [("recipient", .obj [("id", .str userId)]),
        ("sender_action", .str action)]

/-- The two platform identities of messenger.js lines 3-6; the server holds
one client instance per platform. -/
inductive Platform where
  | messenger
  | instagram
deriving DecidableEq

/-- Greeting reply of processMessage, src/app.js line 280. -/
def greetingResponse : String := "Hello! How can I help you today?"

/-- Quick-reply prompt of processMessage, src/app.js line 306. -/
def helpPromptText : String := "Here are some options to help you:"

/-- Quick replies of the help branch, src/app.js lines 287-303. -/
def helpQuickReplies : List QuickReply :=
  [{ content_type := "text", title := "Get Started", payload := "GET_STARTED" },
   { content_type := "text", title := "Contact Support", payload := "CONTACT_SUPPORT" },
   { content_type := "text", title := "Learn More", payload := "LEARN_MORE" }]

/-- Button-template prompt of processMessage, src/app.js line 324. -/
def buttonPromptText : String := "Check out these resources:"

/-- Buttons of the button branch, src/app.js lines 310-321. -/
def docsButtons : List TemplateButton :=
  [{ type := "web_url", title := "Visit Docs",
     url := some "https://developers.facebook.com/docs/messenger-platform", payload := none },
   { type := "postback", title := "Get Started", url := none, payload := some "GET_STARTED" }]

/-- Default reply of processMessage, src/app.js line 328. -/
def defaultResponse : String := "Thanks for your message! I'm here to help."

/-- Reply attempted by the catch block of processMessage, src/app.js line 349. -/
def errorResponse : String := "Sorry, I encountered an error. Please try again."

/-- Instagram greeting reply, src/app.js line 372. -/
def igGreetingResponse : String := "Hello from Instagram! 👋"

/-- Instagram default reply, src/app.js line 379. -/
def igDefaultResponse : String := "Thanks for reaching out on Instagram!"

/-- The keyword chain of processMessage, src/app.js lines 278-333 (identical
in the second variant, lines 843-882): the first matching substring rule of
the lower-cased text picks the reply; no match picks the default text. -/
def selectPrimaryCall (senderId text : String) : ApiCall :=
  if jsIncludes text "hello" || jsIncludes text "hi" then
    .sendTextMessage senderId greetingResponse
  else if jsIncludes text "help" then
    .sendQuickReply senderId helpPromptText helpQuickReplies
  else if jsIncludes text "button" then
    .sendButtonTemplate senderId buttonPromptText docsButtons
  else
    .sendTextMessage senderId defaultResponse

/-- An inbound message object: its `text` property may be absent. -/
structure Message where
  text : Option String
deriving DecidableEq

/-- A sender reference, `(sender: (id))`. -/
structure Sender where
  id : String
deriving DecidableEq

/-- One messaging event of a webhook entry. -/
structure MessagingEvent where
  sender : Sender
  message : Option Message
  timestamp : Option Nat
deriving DecidableEq

/-- One entry of a webhook delivery body; `messaging` is `none` when the
entry carries no `messaging` property at all. -/
structure Entry where
  id : String
  time : Nat
  messaging : Option (List MessagingEvent)
deriving DecidableEq

/-- A webhook delivery body. -/
structure WebhookBody where
  object : Option String
  entry : Option (List Entry)
deriving DecidableEq

/-- processMessage, src/app.js lines 267-357, as the list of client calls it
issues.  An absent message object makes `message.text` throw, which the catch
block answers with a best-effort error text (its own failure is swallowed by
the inner try at lines 347-354).  A falsy text issues no call.  Otherwise the
selected reply is sent; if that send fails, the catch block sends the error
text.  processMessage itself never throws. -/
def processMessage (outcome : ApiCall → Except JsError Json) (senderId : String)
    (message : Option Message) : List ApiCall :=
  match message with
  | none => [.sendTextMessage senderId errorResponse]
  | some m =>
      match m.text with
      | none => []
      | some t =>
          if t == "" then []
          else
            let primary := selectPrimaryCall senderId (jsToLowerCase t)
            match outcome primary with
            | .ok _ => [primary]
            | .error _ => [primary, .sendTextMessage senderId errorResponse]

/-- processInstagramMessage, src/app.js lines 360-399: a greeting or default
text reply through the instagram client; all failures (including the
`message.text` access on an absent message) are caught and only logged. -/
def processInstagramMessage (senderId : String) (message : Option Message) : List ApiCall :=
  match message with
  | none => []
  | some m =>
      match m.text with
      | none => []
      | some t =>
          if t == "" then []
          else
            if jsIncludes (jsToLowerCase t) "hello" || jsIncludes (jsToLowerCase t) "hi" then
              [.sendTextMessage senderId igGreetingResponse]
            else
              [.sendTextMessage senderId igDefaultResponse]

/-- Processing of one messaging event in the page branch, src/app.js lines
142-193: mark seen, typing on, processMessage, typing off, each through the
messenger client; the mark-seen and typing calls are wrapped in their own
try/catch (lines 163-168, 172-177, 185-190), so their outcomes cannot stop
the sequence. -/
def handleEvent (outcome : Platform → ApiCall → Except JsError Json)
    (ev : MessagingEvent) : List (Platform × ApiCall) :=
  let senderId := ev.sender.id
  (Platform.messenger, ApiCall.markAsSeen senderId)
    :: (Platform.messenger, ApiCall.sendTypingIndicator senderId true)
    :: ((processMessage (outcome Platform.messenger) senderId ev.message).map
          (fun c => (Platform.messenger, c))
        ++ [(Platform.messenger, ApiCall.sendTypingIndicator senderId false)])

/-- Processing of one entry in the page branch: `entry.messaging[0]` throws
when `messaging` is absent (caught by the outer try as a fatal error for the
request); an empty event list leaves `webhookEvent` undefined, so the entry
is skipped; otherwise only the first event is handled. -/
def handleEntry (outcome : Platform → ApiCall → Except JsError Json)
    (entry : Entry) : List (Platform × ApiCall) × Option JsError :=
  match entry.messaging with
  | none => ([], some (.typeError "Cannot read properties of undefined (reading 0)"))
  | some evs =>
      match evs.head? with
      | none => ([], none)
      | some ev => (handleEvent outcome ev, none)

/-- The `for (const entry of body.entry)` loop: entries are processed in
order; the first thrown error aborts the loop (calls already issued stand). -/
def runEntries (handle : Entry → List (Platform × ApiCall) × Option JsError) :
    List Entry → List (Platform × ApiCall) × Option JsError
  | [] => ([], none)
  | e :: rest =>
      match handle e with
      | (cs, some err) => (cs, some err)
      | (cs, none) =>
          let r := runEntries handle rest
          (cs ++ r.1, r.2)

/-- The page branch of POST /webhook, src/app.js lines 132-207: on a clean
loop answer 200 "EVENT_RECEIVED", on a thrown error answer 500; iterating an
absent `entry` list throws immediately. -/
def webhookPostPage (outcome : Platform → ApiCall → Except JsError Json)
    (entries : Option (List Entry)) : HttpResponse × List (Platform × ApiCall) :=
  match entries with
  | none => ({ status := 500, body := none }, [])
  | some es =>
      let r := runEntries (handleEntry outcome) es
      match r.2 with
      | none => ({ status := 200, body := some "EVENT_RECEIVED" }, r.1)
      | some _ => ({ status := 500, body := none }, r.1)

/-- Processing of one entry in the instagram branch, src/app.js lines
212-243: first event only, no seen/typing calls, replies through the
instagram client. -/
def handleEntryInstagram (entry : Entry) : List (Platform × ApiCall) × Option JsError :=
  match entry.messaging with
  | none => ([], some (.typeError "Cannot read properties of undefined (reading 0)"))
  | some evs =>
      match evs.head? with
      | none => ([], none)
      | some ev =>
          ((processInstagramMessage ev.sender.id ev.message).map
            (fun c => (Platform.instagram, c)), none)

/-- The instagram branch of POST /webhook, src/app.js lines 208-257. -/
def webhookPostInstagram (entries : Option (List Entry)) :
    HttpResponse × List (Platform × ApiCall) :=
  match entries with
  | none => ({ status := 500, body := none }, [])
  | some es =>
      let r := runEntries handleEntryInstagram es
      match r.2 with
      | none => ({ status := 200, body := some "EVENT_RECEIVED" }, r.1)
      | some _ => ({ status := 500, body := none }, r.1)

/-- POST /webhook, src/app.js lines 118-264: dispatch on `body.object`;
unknown object types answer 404. -/
def webhookPost (outcome : Platform → ApiCall → Except JsError Json)
    (body : WebhookBody) : HttpResponse × List (Platform × ApiCall) :=
  if body.object == some "page" then webhookPostPage outcome body.entry
  else if body.object == some "instagram" then webhookPostInstagram body.entry
  else ({ status := 404, body := none }, [])

/-- The catch block of the second-variant processMessage, src/app.js lines
884-887: the error text is sent with no inner try/catch, so its own failure
propagates. -/
def v2CatchSend (outcome : ApiCall → Except JsError Json) (senderId : String) :
    List ApiCall × Option JsError :=
  match outcome (.sendTextMessage senderId errorResponse) with
  | .ok _ => ([.sendTextMessage senderId errorResponse], none)
  | .error e => ([.sendTextMessage senderId errorResponse], some e)

/-- processMessage of the second variant, src/app.js lines 837-888: the same
keyword chain, but the catch block's error send can itself throw. -/
def processMessageV2 (outcome : ApiCall → Except JsError Json) (senderId : String)
    (message : Option Message) : List ApiCall × Option JsError :=
  match message with
  | none => v2CatchSend outcome senderId
  | some m =>
      match m.text with
      | none => ([], none)
      | some t =>
          if t == "" then ([], none)
          else
            let primary := selectPrimaryCall senderId (jsToLowerCase t)
            match outcome primary with
            | .ok _ => ([primary], none)
            | .error _ =>
                let r := v2CatchSend outcome senderId
                (primary :: r.1, r.2)

/-- Processing of one messaging event in the second-variant page branch,
src/app.js lines 784-801: mark seen, typing on, processMessage, typing off
are awaited with NO per-call try/catch, so any failure propagates to the
outer catch. -/
def handleEventV2 (outcome : Platform → ApiCall → Except JsError Json)
    (ev : MessagingEvent) : List (Platform × ApiCall) × Option JsError :=
  let senderId := ev.sender.id
  match outcome Platform.messenger (.markAsSeen senderId) with
  | .error e => ([(Platform.messenger, .markAsSeen senderId)], some e)
  | .ok _ =>
      match outcome Platform.messenger (.sendTypingIndicator senderId true) with
      | .error e =>
          ([(Platform.messenger, .markAsSeen senderId),
            (Platform.messenger, .sendTypingIndicator senderId true)], some e)
      | .ok _ =>
          let pm := processMessageV2 (outcome Platform.messenger) senderId ev.message
          let pre := (Platform.messenger, ApiCall.markAsSeen senderId)
            :: (Platform.messenger, ApiCall.sendTypingIndicator senderId true)
            :: pm.1.map (fun c => (Platform.messenger, c))
          match pm.2 with
          | some e => (pre, some e)
          | none =>
              match outcome Platform.messenger (.sendTypingIndicator senderId false) with
              | .error e =>
                  (pre ++ [(Platform.messenger, .sendTypingIndicator senderId false)], some e)
              | .ok _ =>
                  (pre ++ [(Platform.messenger, .sendTypingIndicator senderId false)], none)

/-- Processing of one entry in the second-variant page branch. -/
def handleEntryV2 (outcome : Platform → ApiCall → Except JsError Json)
    (entry : Entry) : List (Platform × ApiCall) × Option JsError :=
  match entry.messaging with
  | none => ([], some (.typeError "Cannot read properties of undefined (reading 0)"))
  | some evs =>
      match evs.head? with
      | none => ([], none)
      | some ev => handleEventV2 outcome ev

/-- The page branch of POST /webhook in the second variant, src/app.js lines
776-808. -/
def webhookPostPageV2 (outcome : Platform → ApiCall → Except JsError Json)
    (entries : Option (List Entry)) : HttpResponse × List (Platform × ApiCall) :=
  match entries with
  | none => ({ status := 500, body := none }, [])
  | some es =>
      let r := runEntries (handleEntryV2 outcome) es
      match r.2 with
      | none => ({ status := 200, body := some "EVENT_RECEIVED" }, r.1)
      | some _ => ({ status := 500, body := none }, r.1)

/-- An HTTP response whose body is produced by `res.json`. -/
structure JsonResponse where
  status : Nat
  body : Json

/-- The body of a POST /api/send-message request; absent properties are
`none`. -/
structure SendMessageBody where
  userId : Option String
  message : Option String
  platform : Option String

/-- The platform selection of the REST façade endpoints, src/app.js line 427
(`platform === 'instagram' ? instagram : messenger`): every value other than
exactly "instagram" selects the messenger client. -/
def selectInstance (platform : String) : Platform :=
  if platform == "instagram" then Platform.instagram else Platform.messenger

/-- The `received` echo of the validation-failure body, src/app.js lines
420-423; properties whose value is `undefined` are dropped by the JSON
serialisation of `res.json`. -/
def receivedEcho (req : SendMessageBody) (platform : String) : Json :=
  .obj ((match req.userId with | some u => [("userId", Json.str u)] | none => [])
    ++ (match req.message with | some m => [("message", Json.str m)] | none => [])
    ++ [("platform", Json.str platform)])

/-- POST /api/send-message, src/app.js lines 402-467 (the part_001 variant,
lines 710-826, has the same validation, selection, client call and
status/result shape, plus a `_logging` envelope): missing or empty userId or
message answers 400; otherwise exactly one `sendTextMessage` call goes to the
selected client, answered 200 with the client result under `result` on
success, or 500 carrying the failure's message on error (`error.code` is
`undefined` for these failures and is dropped by serialisation). -/
def sendMessageHandler (outcome : Platform → ApiCall → Except JsError Json)
    (req : SendMessageBody) : JsonResponse × List (Platform × ApiCall) :=
  let platform := req.platform.getD "messenger"
  if jsTruthyOpt req.userId && jsTruthyOpt req.message then
    let u := req.userId.getD ""
    let m := req.message.getD ""
    let inst := selectInstance platform
    match outcome inst (.sendTextMessage u m) with
    | .ok r =>
        ({ status := 200, body := .obj [("success", .bool true), ("result", r)] },
         [(inst, .sendTextMessage u m)])
    | .error e =>
        ({ status := 500,
           body := .obj [("error", .str e.message), ("errorType", .str e.typeName),
                         ("details", .str "Check server logs for more information")] },
         [(inst, .sendTextMessage u m)])
  else
    ({ status := 400,
       body := .obj [("error", .str "Missing userId or message"),
                     ("received", receivedEcho req platform)] },
     [])

/-- The res.json override middleware of part_001 lines 104-127: before
serialisation a `_logging` envelope is assigned onto the response data
(`data._logging = ...`; the guard `data && typeof data === 'object'` limits
the observable effect to object bodies). -/
def applyLoggingMiddleware (data loggingInfo : Json) : Json :=
  data.setField "_logging" loggingInfo

/-- The reply families of the part_001 processMessage chain, lines 381-671,
one constructor per branch. -/
inductive V23Reply where
  | greeting
  | helpMenu
  | buttonTemplate
  | listTemplate
  | genericTemplate
  | insights
  | reactionInfo
  | oneTimeNote
  | versionInfo
  | defaultReply
deriving DecidableEq

/-- Default reply of the part_001 processMessage chain, lines 627-634. -/
def v23DefaultResponse : String :=
  "Thanks for your message! I'm an enhanced bot powered by Messenger API v23.0. Try saying \"help\", \"list\", \"generic\", \"insights\", or \"version\" to see what I can do! 🚀"

/-- The keyword chain of the part_001 processMessage, lines 390-634: first
matching substring rule of the lower-cased text wins; no match falls through
to the default reply (a single text send of `v23DefaultResponse`). -/
def selectResponseV23 (text : String) : V23Reply :=
  if jsIncludes text "hello" || jsIncludes text "hi" || jsIncludes text "hey" then .greeting
  else if jsIncludes text "help" || jsIncludes text "support" then .helpMenu
  else if jsIncludes text "button" || jsIncludes text "template" then .buttonTemplate
  else if jsIncludes text "list" || jsIncludes text "menu" then .listTemplate
  else if jsIncludes text "generic" || jsIncludes text "cards" then .genericTemplate
  else if jsIncludes text "insights" || jsIncludes text "analytics" then .insights
  else if jsIncludes text "reaction" || jsIncludes text "emoji" then .reactionInfo
  else if jsIncludes text "notification" || jsIncludes text "alert" then .oneTimeNote
  else if jsIncludes text "version" || jsIncludes text "api" then .versionInfo
  else .defaultReply

/-- Disjunction of the substring guards of the app.js processMessage chain. -/
def matchesAppKeyword (text : String) : Bool :=
  jsIncludes text "hello" || jsIncludes text "hi" ||
  jsIncludes text "help" || jsIncludes text "button"

/-- Disjunction of the substring guards of the part_001 processMessage
chain. -/
def matchesV23Keyword (text : String) : Bool :=
  jsIncludes text "hello" || jsIncludes text "hi" || jsIncludes text "hey" ||
  jsIncludes text "help" || jsIncludes text "support" ||
  jsIncludes text "button" || jsIncludes text "template" ||
  jsIncludes text "list" || jsIncludes text "menu" ||
  jsIncludes text "generic" || jsIncludes text "cards" ||
  jsIncludes text "insights" || jsIncludes text "analytics" ||
  jsIncludes text "reaction" || jsIncludes text "emoji" ||
  jsIncludes text "notification" || jsIncludes text "alert" ||
  jsIncludes text "version" || jsIncludes text "api"

/-- The webhook body of end-to-end scenario A. -/
def scenarioABody : WebhookBody :=
  { object := some "page"
    entry := some [{ id := "1", time := 1,
                     messaging := some [{ sender := { id := "42" },
                                          message := some { text := some "Hi" },
                                          timestamp := none }] }] }

/-- A client whose every call succeeds with a null result. -/
def allOkClient : Platform → ApiCall → Except JsError Json := fun _ _ => .ok .null

/-- A client whose mark-seen call fails with a network error while all other
calls succeed. -/
def failSeenClient : Platform → ApiCall → Except JsError Json := fun _ c =>
  match c with
  | .markAsSeen _ => .error (.transport "request to graph.facebook.com failed")
  | _ => .ok .null

/-- The entry of scenario A, reused for the second-variant counterexample. -/
def c4Entry : Entry :=
  { id := "1", time := 1,
    messaging := some [{ sender := { id := "42" },
                         message := some { text := some "Hi" },
                         timestamp := none }] }

/-- The remote body of end-to-end scenario D. -/
def invalidTokenBody : Json :=
  .obj [("error", .obj [("message", .str "Invalid token")])]

/-- A remote API answering every call with HTTP 200 and scenario D's error
body. -/
def invalidTokenRemote : Platform → ApiCall → Except String RemoteResponse :=
  fun _ _ => .ok { status := 200, statusText := "OK", body := invalidTokenBody }

/-- Claim C1, formalised for a single configured secret and request: 200 with
the challenge iff mode is "subscribe" and the token equals the secret; 403
whenever both values are present but that condition fails; 400 whenever mode
or token is absent. -/
abbrev c1Spec (secret : String) (q : VerifyQuery) : Prop :=
  ((webhookGet (some secret) q).status = 200 ∧ (webhookGet (some secret) q).body = q.challenge
      ↔ q.mode = some "subscribe" ∧ q.verifyToken = some secret)
  ∧ (q.mode.isSome → q.verifyToken.isSome →
      ¬(q.mode = some "subscribe" ∧ q.verifyToken = some secret) →
      (webhookGet (some secret) q).status = 403)
  ∧ (q.mode = none ∨ q.verifyToken = none → (webhookGet (some secret) q).status = 400)

/-- C1 counterexample: with secret "SECRET", the request
`?hub.mode=&hub.verify_token=WRONG&hub.challenge=c` has mode and token both
present (mode is the empty string), the success condition fails, yet the
handler answers 400, not the 403 the claim requires: JS truthiness makes the
code treat a present-but-empty value as absent. -/
theorem C1_counterexample :
    ¬ c1Spec "SECRET" { mode := some "", verifyToken := some "WRONG", challenge := some "c" } := by
  decide

/-- C1 amended: reading "present" as "present and non-empty" (which is what
the JS truthiness test `if (mode && token)` checks), the claim holds: 200 with
the challenge iff mode is "subscribe" and the token equals the (non-empty)
secret; 403 when both values are non-empty and the condition fails; 400 when
mode or token is absent or empty. -/
theorem C1_amended (secret : String) (q : VerifyQuery) :
    ((webhookGet (some secret) q).status = 200 ∧ (webhookGet (some secret) q).body = q.challenge
        ↔ q.mode = some "subscribe" ∧ q.verifyToken = some secret ∧ secret ≠ "")
    ∧ (jsTruthyOpt q.mode = true ∧ jsTruthyOpt q.verifyToken = true ∧
        ¬(q.mode = some "subscribe" ∧ q.verifyToken = some secret) →
        (webhookGet (some secret) q).status = 403)
    ∧ (jsTruthyOpt q.mode = false ∨ jsTruthyOpt q.verifyToken = false →
        (webhookGet (some secret) q).status = 400) := by
  obtain ⟨mo, tok, ch⟩ := q
  rcases mo with _ | ms
  · simp [webhookGet, jsTruthyOpt]
  rcases tok with _ | ts
  · simp [webhookGet, jsTruthyOpt]
  by_cases hms : ms = ""
  · subst hms
    simp [webhookGet, jsTruthyOpt]
  by_cases hts : ts = ""
  · subst hts
    have hw : webhookGet (some secret) ⟨some ms, some "", ch⟩ = { status := 400, body := none } := by
      simp [webhookGet, jsTruthyOpt]
    refine ⟨?_, ?_, ?_⟩
    · rw [hw]
      constructor
      · rintro ⟨h, _⟩
        exact absurd h (by decide)
      · rintro ⟨_, h2, h3⟩
        exact absurd (Option.some.inj h2).symm h3
    · rintro ⟨_, hbad, _⟩
      simp [jsTruthyOpt] at hbad
    · intro _
      rw [hw]
  by_cases hsub : ms = "subscribe" <;> by_cases hsec : ts = secret <;>
    simp [webhookGet, jsTruthyOpt, hms, hts, hsub, hsec, beq_iff_eq] <;>
    simp_all

/-- Witness for C1_amended: a wrong token with non-empty mode and token is
rejected with 403. -/
theorem C1_amended_witness :
    (webhookGet (some "tok") { mode := some "subscribe", verifyToken := some "bad", challenge := some "c" }).status = 403 :=
  (C1_amended "tok" { mode := some "subscribe", verifyToken := some "bad", challenge := some "c" }).2.1
    (by decide)

/-- C9 counterexample: the claim fails when the configured secret is the
empty string: for `VERIFY_TOKEN=""` and the request
`?hub.mode=subscribe&hub.verify_token=` (token present and equal to the
secret, challenge absent) the handler answers 400, not 200, because the empty
token is falsy. -/
theorem C9_counterexample :
    (webhookGet (some "") { mode := some "subscribe", verifyToken := some "", challenge := none }).status ≠ 200
    ∧ (webhookGet (some "") { mode := some "subscribe", verifyToken := some "", challenge := none }).status = 400 := by
  decide

/-- C9 amended: provided the configured secret is non-empty, the handler never
checks that the challenge is present: a request with mode "subscribe", the
correct token and no `hub.challenge` is answered 200 with an empty body. -/
theorem C9_amended (secret : String) (h : secret ≠ "") :
    webhookGet (some secret) { mode := some "subscribe", verifyToken := some secret, challenge := none }
      = { status := 200, body := none } := by
  simp [webhookGet, jsTruthyOpt, h]

/-- Witness for C9_amended at the concrete secret "token123". -/
theorem C9_amended_witness :
    webhookGet (some "token123") { mode := some "subscribe", verifyToken := some "token123", challenge := none }
      = { status := 200, body := none } :=
  C9_amended "token123" (by decide)

/-- C2, code-bug evidence at the failing input `sendTextMessage("42","Hi")`:
the part_000 (v23.0) client issues its one HTTP call with no query string and
no body — neither the access token nor the operation parameters are carried —
even though the merged parameter object it computes does hold the token; the
messenger.js (v18.0) client, by contrast, carries the full parameter object
(with the access token) as the JSON body of its POST. -/
theorem C2_code_bug_eval :
    (buildApiRequestV23 "TOKEN" "/PAGE/messages" (textMessageParametersV23 "42" "Hi") "POST").query = none
    ∧ (buildApiRequestV23 "TOKEN" "/PAGE/messages" (textMessageParametersV23 "42" "Hi") "POST").body = none
    ∧ Json.getField (v23MergedParams "TOKEN" (textMessageParametersV23 "42" "Hi")) "access_token"
        = some (.str "TOKEN")
    ∧ (buildApiRequest "TOKEN" "PAGE/messages" (textMessageParameters "42" "Hi") "POST").body
        = some ((textMessageParameters "42" "Hi").setField "access_token" (.str "TOKEN"))
    ∧ Json.getField ((textMessageParameters "42" "Hi").setField "access_token" (.str "TOKEN")) "access_token"
        = some (.str "TOKEN") :=
  ⟨rfl, rfl, rfl, rfl, rfl⟩

/-- Field lookup is unaffected by assigning a different key. -/
theorem lookupField_setFieldList_ne (fs : List (String × Json)) (key : String) (v : Json)
    (k : String) (hk : k ≠ key) :
    lookupField (setFieldList fs key v) k = lookupField fs k := by
  induction fs with
  | nil =>
      have : (key == k) = false := beq_eq_false_iff_ne.mpr (fun h => hk h.symm)
      simp [setFieldList, lookupField, this]
  | cons head tail ih =>
      obtain ⟨k', v'⟩ := head
      by_cases h : k' = key
      · subst h
        have hkk : (k' == k) = false := beq_eq_false_iff_ne.mpr (fun h => hk h.symm)
        simp [setFieldList, lookupField, hkk]
      · have hkey : (k' == key) = false := beq_eq_false_iff_ne.mpr h
        simp [setFieldList, lookupField, hkey, ih]

/-- Property read is unaffected by assigning a different key. -/
theorem getField_setField_ne (d : Json) (key : String) (v : Json) (k : String)
    (hk : k ≠ key) : (d.setField key v).getField k = d.getField k := by
  cases d <;> simp [Json.setField, Json.getField]
  exact lookupField_setFieldList_ne _ key v k hk

/-- With no keyword of the app.js chain in the text, the selected reply is
the default text send. -/
theorem selectPrimaryCall_default (senderId text : String)
    (h : matchesAppKeyword text = false) :
    selectPrimaryCall senderId text = .sendTextMessage senderId defaultResponse := by
  simp only [matchesAppKeyword, Bool.or_eq_false_iff] at h
  obtain ⟨⟨⟨h1, h2⟩, h3⟩, h4⟩ := h
  simp [selectPrimaryCall, h1, h2, h3, h4]

/-- With no keyword of the part_001 chain in the text, the selected reply is
the default branch. -/
theorem selectResponseV23_default (text : String)
    (h : matchesV23Keyword text = false) :
    selectResponseV23 text = .defaultReply := by
  simp only [matchesV23Keyword, Bool.or_eq_false_iff] at h
  obtain ⟨⟨⟨⟨⟨⟨⟨⟨⟨⟨⟨⟨⟨⟨⟨⟨⟨⟨h1, h2⟩, h3⟩, h4⟩, h5⟩, h6⟩, h7⟩, h8⟩, h9⟩, h10⟩,
    h11⟩, h12⟩, h13⟩, h14⟩, h15⟩, h16⟩, h17⟩, h18⟩, h19⟩ := h
  simp [selectResponseV23, h1, h2, h3, h4, h5, h6, h7, h8, h9, h10, h11, h12,
    h13, h14, h15, h16, h17, h18, h19]

/-- C3: for scenario A's body, provided the greeting send succeeds, the page
branch issues exactly mark-seen, typing-on, the greeting text send and
typing-off for sender 42, in that order, and answers 200 "EVENT_RECEIVED". -/
theorem C3_scenarioA (outcome : Platform → ApiCall → Except JsError Json) (r : Json)
    (h : outcome Platform.messenger (.sendTextMessage "42" greetingResponse) = .ok r) :
    webhookPost outcome scenarioABody
      = ({ status := 200, body := some "EVENT_RECEIVED" },
         [(Platform.messenger, .markAsSeen "42"),
          (Platform.messenger, .sendTypingIndicator "42" true),
          (Platform.messenger, .sendTextMessage "42" greetingResponse),
          (Platform.messenger, .sendTypingIndicator "42" false)]) := by
  have hsel : selectPrimaryCall "42" (jsToLowerCase "Hi")
      = .sendTextMessage "42" greetingResponse := by decide
  have hne : (("Hi" : String) == "") = false := by decide
  simp [webhookPost, scenarioABody, webhookPostPage, runEntries, handleEntry,
    handleEvent, processMessage, hne, hsel, h]

/-- Witness for C3 with an all-succeeding client. -/
theorem C3_scenarioA_witness :
    webhookPost allOkClient scenarioABody
      = ({ status := 200, body := some "EVENT_RECEIVED" },
         [(Platform.messenger, .markAsSeen "42"),
          (Platform.messenger, .sendTypingIndicator "42" true),
          (Platform.messenger, .sendTextMessage "42" greetingResponse),
          (Platform.messenger, .sendTypingIndicator "42" false)]) :=
  C3_scenarioA allOkClient .null rfl

/-- C4 counterexample: in the second webhook handler variant (src/app.js
lines 776-808, cited by the claim) a failing mark-seen call is not swallowed:
for scenario A's entry and a client whose mark-seen fails, the handler
answers 500 and the only call issued is the mark-seen itself — the
response-selection reply is never sent. -/
theorem C4_counterexample :
    (webhookPostPageV2 failSeenClient (some [c4Entry])).1.status = 500
    ∧ (webhookPostPageV2 failSeenClient (some [c4Entry])).2
        = [(Platform.messenger, ApiCall.markAsSeen "42")] :=
  ⟨rfl, rfl⟩

/-- C4 amended: in the first webhook handler variant the claim holds — for
every client behaviour (in particular when mark-seen and both typing calls
fail), a page entry with at least one event still produces the full call
sequence including the response-selection calls of processMessage, and the
request is answered 200 "EVENT_RECEIVED". -/
theorem C4_amended (outcome : Platform → ApiCall → Except JsError Json)
    (entryId : String) (time : Nat) (ev : MessagingEvent) (rest : List MessagingEvent) :
    webhookPostPage outcome (some [{ id := entryId, time := time, messaging := some (ev :: rest) }])
      = ({ status := 200, body := some "EVENT_RECEIVED" },
         (Platform.messenger, ApiCall.markAsSeen ev.sender.id)
           :: (Platform.messenger, ApiCall.sendTypingIndicator ev.sender.id true)
           :: ((processMessage (outcome Platform.messenger) ev.sender.id ev.message).map
                 (fun c => (Platform.messenger, c))
               ++ [(Platform.messenger, ApiCall.sendTypingIndicator ev.sender.id false)])) := by
  simp [webhookPostPage, runEntries, handleEntry, handleEvent]

/-- Witness for C4_amended: with every indicator call failing, scenario A's
entry still yields 200 and the processMessage calls. -/
theorem C4_amended_witness :
    webhookPostPage failSeenClient (some [c4Entry])
      = ({ status := 200, body := some "EVENT_RECEIVED" },
         (Platform.messenger, ApiCall.markAsSeen "42")
           :: (Platform.messenger, ApiCall.sendTypingIndicator "42" true)
           :: ((processMessage (failSeenClient Platform.messenger) "42"
                  (some { text := some "Hi" })).map (fun c => (Platform.messenger, c))
               ++ [(Platform.messenger, ApiCall.sendTypingIndicator "42" false)])) :=
  C4_amended failSeenClient "1" 1
    { sender := { id := "42" }, message := some { text := some "Hi" }, timestamp := none } []

/-- C5: a remote answer of HTTP 200 whose body is scenario D's error object
makes the client call reject with the remote-API failure carrying
"Invalid token" (the thrown message is "API Error: Invalid token"), and the
send-message façade backed by that client answers 500 with a body whose
`error` field includes that message. -/
theorem C5_remote_error (remote : Platform → ApiCall → Except String RemoteResponse)
    (u m st : String) (hu : u ≠ "") (hm : m ≠ "")
    (hremote : remote Platform.messenger (.sendTextMessage u m)
        = .ok { status := 200, statusText := st, body := invalidTokenBody }) :
    sendApiRequest (remote Platform.messenger (.sendTextMessage u m))
      = .error (.remoteApi "Invalid token")
    ∧ JsError.message (.remoteApi "Invalid token") = "API Error: Invalid token"
    ∧ (sendMessageHandler (fun p c => sendApiRequest (remote p c))
        { userId := some u, message := some m, platform := none }).1.status = 500
    ∧ Json.getField (sendMessageHandler (fun p c => sendApiRequest (remote p c))
        { userId := some u, message := some m, platform := none }).1.body "error"
      = some (.str "API Error: Invalid token")
    ∧ jsIncludes "API Error: Invalid token" "Invalid token" = true := by
  have hub : (u == "") = false := beq_eq_false_iff_ne.mpr hu
  have hmb : (m == "") = false := beq_eq_false_iff_ne.mpr hm
  have hreq : sendApiRequest (remote Platform.messenger (.sendTextMessage u m))
      = .error (.remoteApi "Invalid token") := by
    rw [hremote]
    rfl
  refine ⟨hreq, rfl, ?_, ?_, by decide⟩ <;>
    simp [sendMessageHandler, jsTruthyOpt, hub, hmb, selectInstance, hreq,
      JsError.message, JsError.typeName, Json.getField, lookupField]

/-- Witness for C5 with the concrete scenario-D remote. -/
theorem C5_remote_error_witness :
    sendApiRequest (invalidTokenRemote Platform.messenger (.sendTextMessage "42" "Hi"))
      = .error (.remoteApi "Invalid token") :=
  (C5_remote_error invalidTokenRemote "42" "Hi" "OK" (by decide) (by decide) rfl).1

/-- C6: in the page branch, an entry whose event list has at least one event
is handled exactly as its first event (later events are ignored), and an
entry with zero events is skipped: no call, no error, and no effect on the
loop result or the 200 acknowledgement. -/
theorem C6_first_event_and_empty_skip (outcome : Platform → ApiCall → Except JsError Json)
    (entryId : String) (time : Nat) (ev : MessagingEvent) (rest : List MessagingEvent)
    (entryId2 : String) (time2 : Nat) (entries : List Entry) :
    handleEntry outcome { id := entryId, time := time, messaging := some (ev :: rest) }
      = (handleEvent outcome ev, none)
    ∧ handleEntry outcome { id := entryId2, time := time2, messaging := some [] }
      = ([], none)
    ∧ runEntries (handleEntry outcome)
        ({ id := entryId2, time := time2, messaging := some [] } :: entries)
      = runEntries (handleEntry outcome) entries
    ∧ webhookPostPage outcome
        (some ({ id := entryId2, time := time2, messaging := some [] } :: entries))
      = webhookPostPage outcome (some entries) := by
  refine ⟨rfl, rfl, ?_, ?_⟩
  · simp [runEntries, handleEntry]
  · simp [webhookPostPage, runEntries, handleEntry]

/-- Witness for C6 at a concrete two-event entry and an empty entry. -/
theorem C6_witness :
    handleEntry allOkClient
      { id := "1", time := 1,
        messaging := some [{ sender := { id := "42" }, message := some { text := some "Hi" }, timestamp := none },
                           { sender := { id := "43" }, message := some { text := some "Yo" }, timestamp := none }] }
      = (handleEvent allOkClient
          { sender := { id := "42" }, message := some { text := some "Hi" }, timestamp := none }, none)
    ∧ handleEntry allOkClient { id := "2", time := 2, messaging := some [] } = ([], none)
    ∧ runEntries (handleEntry allOkClient)
        [{ id := "2", time := 2, messaging := some [] }]
      = runEntries (handleEntry allOkClient) []
    ∧ webhookPostPage allOkClient (some [{ id := "2", time := 2, messaging := some [] }])
      = webhookPostPage allOkClient (some []) :=
  C6_first_event_and_empty_skip allOkClient "1" 1
    { sender := { id := "42" }, message := some { text := some "Hi" }, timestamp := none }
    [{ sender := { id := "43" }, message := some { text := some "Yo" }, timestamp := none }]
    "2" 2 []

/-- C7: a valid send-message request issues exactly one sendTextMessage call
with the same userId and message, and the 200 response body is
`success: true` with the client's result unchanged under `result`; the
part_001 res.json middleware only assigns a `_logging` key and leaves the
`result` field untouched. -/
theorem C7_roundtrip (outcome : Platform → ApiCall → Except JsError Json)
    (u m : String) (p : Option String) (r : Json) (hu : u ≠ "") (hm : m ≠ "")
    (hok : outcome (selectInstance (p.getD "messenger")) (.sendTextMessage u m) = .ok r) :
    (sendMessageHandler outcome { userId := some u, message := some m, platform := p }).2
      = [(selectInstance (p.getD "messenger"), .sendTextMessage u m)]
    ∧ (sendMessageHandler outcome { userId := some u, message := some m, platform := p }).1
      = { status := 200, body := .obj [("success", .bool true), ("result", r)] }
    ∧ Json.getField
        (sendMessageHandler outcome { userId := some u, message := some m, platform := p }).1.body
        "result" = some r
    ∧ ∀ d loggingInfo : Json,
        Json.getField (applyLoggingMiddleware d loggingInfo) "result" = Json.getField d "result" := by
  have hub : (u == "") = false := beq_eq_false_iff_ne.mpr hu
  have hmb : (m == "") = false := beq_eq_false_iff_ne.mpr hm
  refine ⟨?_, ?_, ?_, ?_⟩
  · simp [sendMessageHandler, jsTruthyOpt, hub, hmb, hok]
  · simp [sendMessageHandler, jsTruthyOpt, hub, hmb, hok]
  · simp [sendMessageHandler, jsTruthyOpt, hub, hmb, hok, Json.getField, lookupField]
  · intro d loggingInfo
    exact getField_setField_ne d "_logging" loggingInfo "result" (by decide)

/-- Witness for C7 at a concrete request and client result. -/
theorem C7_roundtrip_witness :
    (sendMessageHandler allOkClient
        { userId := some "42", message := some "Hi", platform := none }).2
      = [(selectInstance "messenger", .sendTextMessage "42" "Hi")] :=
  (C7_roundtrip allOkClient "42" "Hi" none .null (by decide) (by decide) rfl).1

/-- C8: a non-empty inbound text containing no keyword of the app.js chain
(and, for the part_001 variant, none of its chain) gets exactly the default
fallback: processMessage issues the single text send of the default reply
(provided that send succeeds), and the part_001 chain selects its default
branch. -/
theorem C8_default_fallback (outcome : ApiCall → Except JsError Json)
    (senderId t : String) (r : Json) (ht : t ≠ "")
    (happ : matchesAppKeyword (jsToLowerCase t) = false)
    (hv23 : matchesV23Keyword (jsToLowerCase t) = false)
    (hok : outcome (.sendTextMessage senderId defaultResponse) = .ok r) :
    processMessage outcome senderId (some { text := some t })
      = [.sendTextMessage senderId defaultResponse]
    ∧ selectResponseV23 (jsToLowerCase t) = .defaultReply := by
  have htb : (t == "") = false := beq_eq_false_iff_ne.mpr ht
  have hsel := selectPrimaryCall_default senderId (jsToLowerCase t) happ
  refine ⟨?_, selectResponseV23_default _ hv23⟩
  simp [processMessage, htb, hsel, hok]

/-- Witness for C8 at the text "weather today?". -/
theorem C8_default_fallback_witness :
    processMessage (fun _ => .ok .null) "42" (some { text := some "weather today?" })
      = [.sendTextMessage "42" defaultResponse]
    ∧ selectResponseV23 (jsToLowerCase "weather today?") = .defaultReply :=
  C8_default_fallback (fun _ => .ok .null) "42" "weather today?" .null
    (by decide) (by decide) (by decide) rfl

/-- C10: the platform selector is never validated: every platform string
other than exactly "instagram" silently selects the messenger client, and a
valid request with such a platform still issues its sendTextMessage call and
is never answered 400. -/
theorem C10_platform_unvalidated (outcome : Platform → ApiCall → Except JsError Json)
    (u m p : String) (hu : u ≠ "") (hm : m ≠ "") (hp : p ≠ "instagram") :
    selectInstance p = Platform.messenger
    ∧ (sendMessageHandler outcome { userId := some u, message := some m, platform := some p }).2
      = [(Platform.messenger, .sendTextMessage u m)]
    ∧ (sendMessageHandler outcome { userId := some u, message := some m, platform := some p }).1.status
      ≠ 400 := by
  have hub : (u == "") = false := beq_eq_false_iff_ne.mpr hu
  have hmb : (m == "") = false := beq_eq_false_iff_ne.mpr hm
  have hpb : (p == "instagram") = false := beq_eq_false_iff_ne.mpr hp
  have hsel : selectInstance p = Platform.messenger := by simp [selectInstance, hpb]
  refine ⟨hsel, ?_, ?_⟩ <;>
    cases hoc : outcome Platform.messenger (.sendTextMessage u m) <;>
      simp [sendMessageHandler, jsTruthyOpt, hub, hmb, hsel, hoc]

/-- Witness for C10 at the unrecognized platform "whatsapp". -/
theorem C10_platform_unvalidated_witness :
    selectInstance "whatsapp" = Platform.messenger :=
  (C10_platform_unvalidated allOkClient "42" "Hi" "whatsapp"
    (by decide) (by decide) (by decide)).1

end ChatBot
